import Mathlib

/-!
Verification of the `binascii` module of this repository
(`src/vm/src/stdlib/binascii.rs`): hexadecimal encode/decode, base64
encode/decode, CRC-32 checksum, and the uniform input-classification
layer (`SerializedData`).

Shallow embedding conventions:
* Rust `u8` / `u32` values are `Nat`s kept in range by hypotheses or by
  construction; wrapping never occurs in this module (all arithmetic on
  bytes and nibbles stays far below any overflow boundary, and the CRC
  operations are xor/shift which cannot grow past 32 bits).
* `Vec<u8>` / `&[u8]` are `List Nat`.
* A Rust function returning `PyResult<T>` is `Except PyErr T`.
* The `unreachable!()` branch of `hex_nibble` is modelled by `Option`:
  `none` is the aborting branch.
* Host-runtime values passed into the module surface are modelled by the
  closed type `PyObj` (bytes / bytearray / str / anything else), which is
  exactly the set of cases `SerializedData::try_from_object` dispatches
  on.
-/

/-! ## Host values and errors -/

/-- A caller-supplied host value, as far as this module can observe it:
an immutable byte sequence, a mutable byte buffer, a text value (a list
of unicode code points), or any other object (only its class name
matters, for the type-error message). -/
inductive PyObj where
  | bytes (data : List Nat)
  | bytearray (data : List Nat)
  | str (chars : List Nat)
  | other (typeName : String)
deriving DecidableEq

/-- The two error constructors the module uses: `vm.new_value_error` and
`vm.new_type_error`. -/
inductive PyErr where
  | valueError (msg : String)
  | typeError (msg : String)
deriving DecidableEq

/-- The class name used in type-error messages (`obj.class().name`). -/
def PyObj.className : PyObj → String
  | .bytes _ => "bytes"
  | .bytearray _ => "bytearray"
  | .str _ => "str"
  | .other n => n

instance {ε α : Type} [DecidableEq ε] [DecidableEq α] : DecidableEq (Except ε α) := by
  intro a b
  cases a <;> cases b
  case ok.ok x y =>
    exact if h : x = y then .isTrue (by rw [h]) else .isFalse (by intro he; cases he; exact h rfl)
  case error.error x y =>
    exact if h : x = y then .isTrue (by rw [h]) else .isFalse (by intro he; cases he; exact h rfl)
  case ok.error x y => exact .isFalse (by intro he; cases he)
  case error.ok x y => exact .isFalse (by intro he; cases he)

/-! ## SerializedData: the three-variant input classification -/

/-- Embeds `enum SerializedData` (binascii.rs lines 12-16). Each variant
carries the byte content the Rust value owns; for `Ascii` the stored
list is the text's code points, which coincide with its UTF-8 bytes
because construction (below) admits only code points `< 128`. -/
inductive SerializedData where
  | Bytes (b : List Nat)
  | Buffer (b : List Nat)
  | Ascii (s : List Nat)
deriving DecidableEq

/-- Embeds `impl TryFromObject for SerializedData` (lines 18-38):
bytes and bytearray are accepted as-is; a str is accepted only when all
its characters are ASCII, otherwise a `ValueError`; any other object is
a `TypeError` naming its class. -/
def SerializedData.try_from_object : PyObj → Except PyErr SerializedData
  | .bytes b => .ok (.Bytes b)
  | .bytearray b => .ok (.Buffer b)
  | .str s =>
    if s.all (fun c => c < 128) then
      .ok (.Ascii s)
    else
      .error (.valueError "string argument should contain only ASCII characters")
  | .other n =>
    .error (.typeError ("argument should be bytes, buffer or ASCII string, not '" ++ n ++ "'"))

/-- Embeds `SerializedData::with_ref` (lines 40-49): the read-only byte
view of each variant. For `Ascii` the view is `as_str().as_bytes()`,
which equals the stored code points by the ASCII construction
invariant. -/
def SerializedData.with_ref : SerializedData → List Nat
  | .Bytes b => b
  | .Buffer b => b
  | .Ascii s => s

/-- Modelled from the spec: `PyBytesLike` (the "byte-like" input kind of
spec section 4.1) lives in `vm/src/obj/objbyteinner.rs`, outside the
staged sources. Per the spec it accepts only the `Bytes` and `Buffer`
kinds — never text — and rejects everything else with a type error
naming the offending type. -/
def PyBytesLike.try_from_object : PyObj → Except PyErr (List Nat)
  | .bytes b => .ok b
  | .bytearray b => .ok b
  | o => .error (.typeError ("a bytes-like object is required, not '" ++ o.className ++ "'"))

/-! ## Hex codec -/

/-- Embeds `hex_nibble` (lines 51-57). Byte values: `b'0' = 48`,
`b'a' = 97`. The source maps `10..=15` to `b'a' + n` — preserved here
verbatim. The `unreachable!()` arm is `none`. -/
def hex_nibble (n : Nat) : Option Nat :=
  if n ≤ 9 then some (48 + n)
  else if n ≤ 15 then some (97 + n)
  else none

/-- Embeds `binascii_hexlify` (lines 59-68) at the byte level: for each
input byte push `hex_nibble (b >> 4)` then `hex_nibble (b & 0xf)`.
`none` propagates a hit of the `unreachable!()` arm. -/
def binascii_hexlify : List Nat → Option (List Nat)
  | [] => some []
  | b :: rest => do
    let hi ← hex_nibble (b >>> 4)
    let lo ← hex_nibble (b &&& 0xf)
    let tail ← binascii_hexlify rest
    pure (hi :: lo :: tail)

/-- Embeds `unhex_nibble` (lines 70-77). Byte values: `b'0' = 48`,
`b'9' = 57`, `b'a' = 97`, `b'f' = 102`, `b'A' = 65`, `b'F' = 70`. -/
def unhex_nibble (c : Nat) : Option Nat :=
  if 48 ≤ c ∧ c ≤ 57 then some (c - 48)
  else if 97 ≤ c ∧ c ≤ 102 then some (c - 97 + 10)
  else if 65 ≤ c ∧ c ≤ 70 then some (c - 65 + 10)
  else none

/-- The pair loop of `binascii_unhexlify` (lines 86-92): consume the
input two bytes at a time (`Itertools::tuples`, which ignores a
trailing unpaired element), push `n1 << 4 | n2` for each valid pair,
abort on the first invalid pair. -/
def unhexlifyPairs : List Nat → Except PyErr (List Nat)
  | [] => .ok []
  | [_] => .ok []
  | n1 :: n2 :: rest =>
    match unhex_nibble n1, unhex_nibble n2 with
    | some a, some b => (unhexlifyPairs rest).map (fun l => (a <<< 4 ||| b) :: l)
    | _, _ => .error (.valueError "Non-hexadecimal digit found")

/-- Embeds `binascii_unhexlify` (lines 79-96) at the byte level: reject
odd-length input first, then run the pair loop. -/
def binascii_unhexlify (hex_bytes : List Nat) : Except PyErr (List Nat) :=
  if hex_bytes.length % 2 ≠ 0 then .error (.valueError "Odd-length string")
  else unhexlifyPairs hex_bytes

/-- The decoded byte list for an all-valid hex input: one byte
`n1 << 4 | n2` per input pair, left to right. Stated with `getD` so it
is total; it agrees with `unhexlifyPairs` exactly on all-valid input. -/
def hexPairsDecoded : List Nat → List Nat
  | n1 :: n2 :: rest =>
    (((unhex_nibble n1).getD 0) <<< 4 ||| (unhex_nibble n2).getD 0) :: hexPairsDecoded rest
  | _ => []

/-! ## Module entry points (argument conversion then codec) -/

/-- The `hexlify` / `b2a_hex` entry point: a `PyBytesLike` argument,
then `binascii_hexlify`. -/
def hexlify_entry (obj : PyObj) : Except PyErr (Option (List Nat)) :=
  (PyBytesLike.try_from_object obj).map binascii_hexlify

/-- The `unhexlify` / `a2b_hex` entry point: a `SerializedData`
argument, then `binascii_unhexlify` on its byte view. -/
def unhexlify_entry (obj : PyObj) : Except PyErr (List Nat) := do
  let d ← SerializedData.try_from_object obj
  binascii_unhexlify d.with_ref

/-! ## CRC-32

`binascii_crc32` (lines 98-105) delegates the algorithm to the external
`crc` crate: `crc32::Digest::new_with_initial(crc32::IEEE, crc)`, one
`write`, then `sum32`. The crate is not part of the staged sources, so
its algorithm is modelled from the spec (section 4.4: IEEE polynomial,
seedable for chaining): the standard table-driven reflected CRC-32 with
reflected polynomial `0xEDB88320`, whose per-call state handling is
`value = !update_table(!value, bytes)`. -/

/-- The reflected IEEE CRC-32 polynomial (`crc32::IEEE` of the `crc`
crate). -/
def crc32_IEEE : Nat := 0xedb88320

/-- One bit of the reflected CRC-32 reduction: shift right; if the bit
shifted out was set, xor in the polynomial. -/
def crcBitStep (v : Nat) : Nat :=
  if v % 2 = 1 then (v / 2) ^^^ crc32_IEEE else v / 2

/-- `k` iterations of `crcBitStep`. -/
def crcBitSteps : Nat → Nat → Nat
  | 0, v => v
  | k + 1, v => crcBitSteps k (crcBitStep v)

/-- Modelled from the spec: entry `i` of the `crc` crate's 256-entry
IEEE lookup table — eight bit steps applied to the index. -/
def crc32_table (i : Nat) : Nat := crcBitSteps 8 i

/-- Modelled from the spec: the `crc` crate's per-byte table update,
`value = table[(value as u8) ^ byte] ^ (value >> 8)`. -/
def crcByteStep (v b : Nat) : Nat := crc32_table ((v % 256) ^^^ b) ^^^ (v >>> 8)

/-- Embeds `binascii_crc32` (lines 98-105) at the byte level, with the
`crc` crate's `update` semantics modelled from the spec: complement the
seed, fold the table update over the data, complement the result. The
seed defaults to 0 at the entry point. -/
def binascii_crc32 (data : List Nat) (value : Nat) : Nat :=
  (data.foldl crcByteStep (value ^^^ 0xffffffff)) ^^^ 0xffffffff

/-- Modelled from the spec: the standard IEEE CRC-32 reference
implementation, bit at a time (spec section 4.4 "matches the standard
IEEE CRC-32 reference implementation bit-for-bit"): xor each byte into
the low bits of the running value and perform eight polynomial bit
steps, with the same initial and final complement. -/
def crc32_bitwise_reference (data : List Nat) (value : Nat) : Nat :=
  (data.foldl (fun v b => crcBitSteps 8 (v ^^^ b)) (value ^^^ 0xffffffff)) ^^^ 0xffffffff

/-- The `crc32` entry point: a `SerializedData` payload and an optional
seed (`OptionalArg<u32>`, default 0). -/
def crc32_entry (obj : PyObj) (value : Option Nat) : Except PyErr Nat := do
  let d ← SerializedData.try_from_object obj
  .ok (binascii_crc32 d.with_ref (value.getD 0))

/-! ## Base64

`binascii_a2b_base64` / `binascii_b2a_base64` (lines 107-116) delegate
to the external `base64` crate (`base64::decode` / `base64::encode`),
which is not part of the staged sources; the canonical standard base64
algorithm is modelled from the spec (section 4.3: standard alphabet,
`=` padding, no line wrapping). -/

/-- Modelled from the spec: the standard base64 alphabet
`A`-`Z`, `a`-`z`, `0`-`9`, `+`, `/` as byte values. -/
def b64char (n : Nat) : Nat :=
  if n < 26 then 65 + n
  else if n < 52 then 97 + (n - 26)
  else if n < 62 then 48 + (n - 52)
  else if n = 62 then 43
  else 47

/-- Modelled from the spec: the inverse alphabet lookup (`=`, value 61,
is not in the alphabet and maps to `none`). -/
def b64value (c : Nat) : Option Nat :=
  if 65 ≤ c ∧ c ≤ 90 then some (c - 65)
  else if 97 ≤ c ∧ c ≤ 122 then some (c - 97 + 26)
  else if 48 ≤ c ∧ c ≤ 57 then some (c - 48 + 52)
  else if c = 43 then some 62
  else if c = 47 then some 63
  else none

/-- Modelled from the spec: standard base64 encoding — three bytes per
group become four alphabet characters; a trailing group of one or two
bytes is padded with `=` (byte 61). -/
def base64_encode : List Nat → List Nat
  | [] => []
  | [b1] => [b64char (b1 / 4), b64char (b1 % 4 * 16), 61, 61]
  | [b1, b2] => [b64char (b1 / 4), b64char (b1 % 4 * 16 + b2 / 16), b64char (b2 % 16 * 4), 61]
  | b1 :: b2 :: b3 :: rest =>
    b64char (b1 / 4) :: b64char (b1 % 4 * 16 + b2 / 16) ::
      b64char (b2 % 16 * 4 + b3 / 64) :: b64char (b3 % 64) :: base64_encode rest

/-- Modelled from the spec: standard base64 decoding — four characters
per group; `=` padding is admitted only at the end of the input; any
character outside the alphabet, or an input length that is not a
multiple of four, is an error. -/
def base64_decode : List Nat → Except String (List Nat)
  | [] => .ok []
  | c1 :: c2 :: c3 :: c4 :: rest =>
    match b64value c1, b64value c2 with
    | some v1, some v2 =>
      if c3 = 61 ∧ c4 = 61 ∧ rest = [] then .ok [v1 * 4 + v2 / 16]
      else
        match b64value c3 with
        | some v3 =>
          if c4 = 61 ∧ rest = [] then .ok [v1 * 4 + v2 / 16, v2 % 16 * 16 + v3 / 4]
          else
            match b64value c4 with
            | some v4 =>
              (base64_decode rest).map
                (fun l => (v1 * 4 + v2 / 16) :: (v2 % 16 * 16 + v3 / 4) :: (v3 % 4 * 64 + v4) :: l)
            | none => .error "Invalid byte"
        | none => .error "Invalid byte"
    | _, _ => .error "Invalid byte"
  | _ => .error "Invalid length"

/-- Embeds `binascii_a2b_base64` (lines 107-112): decode, wrapping a
decoder diagnostic into a `ValueError`. -/
def binascii_a2b_base64 (bytes : List Nat) : Except PyErr (List Nat) :=
  match base64_decode bytes with
  | .ok v => .ok v
  | .error e => .error (.valueError ("error decoding base64: " ++ e))

/-- Embeds `binascii_b2a_base64` (lines 114-116): encode. -/
def binascii_b2a_base64 (b : List Nat) : List Nat := base64_encode b

/-- The `a2b_base64` entry point: a `SerializedData` argument, then the
decoder on its byte view. -/
def a2b_base64_entry (obj : PyObj) : Except PyErr (List Nat) := do
  let d ← SerializedData.try_from_object obj
  binascii_a2b_base64 d.with_ref

/-- The `b2a_base64` entry point: a `PyBytesLike` argument, then the
encoder. -/
def b2a_base64_entry (obj : PyObj) : Except PyErr (List Nat) :=
  (PyBytesLike.try_from_object obj).map binascii_b2a_base64

/-! ## Hex codec properties -/

/-- The accepted hex digits of `unhex_nibble`: `0`-`9`, `a`-`f`,
`A`-`F`. -/
def isHexDigit (c : Nat) : Prop :=
  (48 ≤ c ∧ c ≤ 57) ∨ (97 ≤ c ∧ c ≤ 102) ∨ (65 ≤ c ∧ c ≤ 70)

instance (c : Nat) : Decidable (isHexDigit c) := by
  unfold isHexDigit; infer_instance

theorem unhex_nibble_eq_none_iff (c : Nat) : unhex_nibble c = none ↔ ¬ isHexDigit c := by
  unfold unhex_nibble isHexDigit
  split_ifs <;> simp_all

theorem unhex_nibble_isSome_iff (c : Nat) : (unhex_nibble c).isSome = true ↔ isHexDigit c := by
  unfold unhex_nibble isHexDigit
  split_ifs <;> simp_all

theorem unhexlifyPairs_error : ∀ l : List Nat, l.length % 2 = 0 →
    (∃ c ∈ l, ¬ isHexDigit c) →
    unhexlifyPairs l = .error (.valueError "Non-hexadecimal digit found")
  | [], _, hex => by obtain ⟨c, hc, _⟩ := hex; cases hc
  | [_], hlen, _ => by simp at hlen
  | n1 :: n2 :: rest, hlen, hex => by
    rcases hn1 : unhex_nibble n1 with _ | a
    · simp [unhexlifyPairs, hn1]
    rcases hn2 : unhex_nibble n2 with _ | b
    · simp [unhexlifyPairs, hn1, hn2]
    have hrest : unhexlifyPairs rest = .error (.valueError "Non-hexadecimal digit found") := by
      apply unhexlifyPairs_error rest
      · simp at hlen ⊢; omega
      · obtain ⟨c, hc, hbad⟩ := hex
        rcases hc with _ | ⟨_, hc⟩
        · exact absurd ((unhex_nibble_eq_none_iff n1).mpr hbad) (by simp [hn1])
        rcases hc with _ | ⟨_, hc⟩
        · exact absurd ((unhex_nibble_eq_none_iff n2).mpr hbad) (by simp [hn2])
        · exact ⟨c, hc, hbad⟩
    simp [unhexlifyPairs, hn1, hn2, hrest, Except.map]

theorem unhexlifyPairs_ok : ∀ l : List Nat, (∀ c ∈ l, isHexDigit c) →
    unhexlifyPairs l = .ok (hexPairsDecoded l)
  | [], _ => rfl
  | [_], _ => rfl
  | n1 :: n2 :: rest, h => by
    have h1 := (unhex_nibble_isSome_iff n1).mpr (h n1 (by simp))
    have h2 := (unhex_nibble_isSome_iff n2).mpr (h n2 (by simp))
    obtain ⟨a, ha⟩ := Option.isSome_iff_exists.mp h1
    obtain ⟨b, hb⟩ := Option.isSome_iff_exists.mp h2
    have hrest := unhexlifyPairs_ok rest (fun c hc => h c (by simp [hc]))
    simp [unhexlifyPairs, hexPairsDecoded, ha, hb, hrest, Except.map]

/-- C4: `unhexlify` fails with "Odd-length string" on odd input length,
fails with "Non-hexadecimal digit found" on even-length input holding a
byte outside `0`-`9` / `a`-`f` / `A`-`F`, and otherwise succeeds,
decoding left to right one output byte `n1 <<< 4 ||| n2` per input
pair; a failure returns no partial result (the whole call is the
error). -/
theorem unhexlify_error_handling (input : List Nat) :
    (input.length % 2 ≠ 0 →
      binascii_unhexlify input = .error (.valueError "Odd-length string"))
  ∧ (input.length % 2 = 0 → (∃ c ∈ input, ¬ isHexDigit c) →
      binascii_unhexlify input = .error (.valueError "Non-hexadecimal digit found"))
  ∧ (input.length % 2 = 0 → (∀ c ∈ input, isHexDigit c) →
      binascii_unhexlify input = .ok (hexPairsDecoded input)) := by
  refine ⟨fun hodd => ?_, fun heven hex => ?_, fun heven hall => ?_⟩
  · simp [binascii_unhexlify, hodd]
  · simp [binascii_unhexlify, heven]
    exact unhexlifyPairs_error input heven hex
  · simp [binascii_unhexlify, heven]
    exact unhexlifyPairs_ok input hall

/-- Witness for C4: the even-length input "0z" (bytes `[48, 122]`)
contains the non-hex byte `z` and is rejected with exactly the
"Non-hexadecimal digit found" error. -/
theorem unhexlify_error_handling_witness :
    binascii_unhexlify [48, 122] = .error (.valueError "Non-hexadecimal digit found") :=
  (unhexlify_error_handling [48, 122]).2.1 (by decide) ⟨122, by decide, by decide⟩

theorem hex_nibble_isSome_of_le (n : Nat) (h : n ≤ 15) : (hex_nibble n).isSome = true := by
  unfold hex_nibble
  split_ifs <;> simp_all

theorem binascii_hexlify_isSome : ∀ bytes : List Nat, (∀ b ∈ bytes, b < 256) →
    (binascii_hexlify bytes).isSome = true
  | [], _ => rfl
  | b :: rest, h => by
    have hb : b < 256 := h b (by simp)
    have hhi : (hex_nibble (b >>> 4)).isSome = true := by
      apply hex_nibble_isSome_of_le
      rw [Nat.shiftRight_eq_div_pow]
      omega
    have hlo : (hex_nibble (b &&& 0xf)).isSome = true :=
      hex_nibble_isSome_of_le _ Nat.and_le_right
    have hrest := binascii_hexlify_isSome rest (fun x hx => h x (by simp [hx]))
    obtain ⟨hi, hhi'⟩ := Option.isSome_iff_exists.mp hhi
    obtain ⟨lo, hlo'⟩ := Option.isSome_iff_exists.mp hlo
    obtain ⟨tail, htail⟩ := Option.isSome_iff_exists.mp hrest
    simp [binascii_hexlify, hhi', hlo', htail]

/-- C9: the `unreachable!()` arm of `hex_nibble` is never hit from
`binascii_hexlify` on well-formed byte input: both arguments it ever
receives — `b >> 4` and `b & 0xf` — are at most 15, so every nibble
lookup and the whole encoding produce a value (`isSome`, i.e. the
modelled abort `none` does not occur). -/
theorem hex_nibble_unreachable_unhit (bytes : List Nat) (h : ∀ b ∈ bytes, b < 256) :
    (∀ b ∈ bytes, b >>> 4 ≤ 15 ∧ b &&& 0xf ≤ 15
      ∧ (hex_nibble (b >>> 4)).isSome = true ∧ (hex_nibble (b &&& 0xf)).isSome = true)
  ∧ (binascii_hexlify bytes).isSome = true := by
  refine ⟨fun b hb => ?_, binascii_hexlify_isSome bytes h⟩
  have hb256 : b < 256 := h b hb
  have hhi : b >>> 4 ≤ 15 := by rw [Nat.shiftRight_eq_div_pow]; omega
  have hlo : b &&& 0xf ≤ 15 := Nat.and_le_right
  exact ⟨hhi, hlo, hex_nibble_isSome_of_le _ hhi, hex_nibble_isSome_of_le _ hlo⟩

/-- Witness for C9: on the concrete bytes `[0, 255]` (extreme nibble
values) the encoding succeeds without reaching the unreachable arm. -/
theorem hex_nibble_unreachable_unhit_witness :
    (binascii_hexlify [0, 255]).isSome = true :=
  (hex_nibble_unreachable_unhit [0, 255] (by decide)).2

/-- C3 (divergence record): the code maps nibble values 10-15 to
`b'a' + n` instead of `b'a' + n - 10`. Concretely, `hexlify [0, 10]`
yields `"00k"` + — bytes `[48, 48, 48, 107]` — where the claim requires
`"000a"` = `[48, 48, 48, 97]`: digits 0-9 encode correctly, but nibble
10 becomes `k` (107), not `a` (97). -/
theorem hexlify_nibble_divergence :
    binascii_hexlify [0, 10] = some [48, 48, 48, 107]
    ∧ 107 ≠ 97 := ⟨rfl, by decide⟩

/-- C1 (divergence record): the hex round trip fails on byte 10: the
encoding is `"0k"` (`[48, 107]`, by the `hex_nibble` defect) and the
decoder rejects `k` with "Non-hexadecimal digit found" instead of
returning `[10]`. -/
theorem hexlify_roundtrip_failure :
    binascii_hexlify [10] = some [48, 107]
    ∧ binascii_unhexlify [48, 107] = .error (.valueError "Non-hexadecimal digit found") :=
  ⟨rfl, rfl⟩

/-! ## CRC-32 properties -/

theorem xor_div_two (a b : Nat) : (a ^^^ b) / 2 = a / 2 ^^^ b / 2 := by
  apply Nat.eq_of_testBit_eq
  intro i
  simp [Nat.testBit_div_two, Nat.testBit_xor]

theorem xor_mod_two (a b : Nat) : (a ^^^ b) % 2 = a % 2 ^^^ b % 2 := by
  rw [← Nat.and_one_is_mod, ← Nat.and_one_is_mod, ← Nat.and_one_is_mod,
    Nat.and_xor_distrib_right]

theorem xor_pair_cancel (x y p : Nat) : (x ^^^ p) ^^^ (y ^^^ p) = x ^^^ y := by
  rw [Nat.xor_assoc, Nat.xor_comm p (y ^^^ p), Nat.xor_assoc, Nat.xor_self, Nat.xor_zero]

theorem xor_right_shuffle (x y p : Nat) : (x ^^^ p) ^^^ y = (x ^^^ y) ^^^ p := by
  rw [Nat.xor_assoc, Nat.xor_comm p y, Nat.xor_assoc]

/-- `crcBitStep` is linear over xor (the polynomial contributions of the
two parity bits cancel or combine). -/
theorem crcBitStep_xor (a b : Nat) : crcBitStep (a ^^^ b) = crcBitStep a ^^^ crcBitStep b := by
  have hab := xor_mod_two a b
  rcases Nat.mod_two_eq_zero_or_one a with ha | ha <;>
    rcases Nat.mod_two_eq_zero_or_one b with hb | hb
  · have hab' : (a ^^^ b) % 2 = 0 := by rw [hab, ha, hb]; decide
    simp [crcBitStep, ha, hb, hab', xor_div_two]
  · have hab' : (a ^^^ b) % 2 = 1 := by rw [hab, ha, hb]; decide
    simp [crcBitStep, ha, hb, hab', xor_div_two]
    rw [Nat.xor_assoc]
  · have hab' : (a ^^^ b) % 2 = 1 := by rw [hab, ha, hb]; decide
    simp [crcBitStep, ha, hb, hab', xor_div_two]
    rw [xor_right_shuffle]
  · have hab' : (a ^^^ b) % 2 = 0 := by rw [hab, ha, hb]; decide
    simp [crcBitStep, ha, hb, hab', xor_div_two]
    rw [xor_pair_cancel]

theorem crcBitSteps_xor : ∀ (k a b : Nat),
    crcBitSteps k (a ^^^ b) = crcBitSteps k a ^^^ crcBitSteps k b
  | 0, _, _ => rfl
  | k + 1, a, b => by
    simp only [crcBitSteps, crcBitStep_xor]
    exact crcBitSteps_xor k _ _

/-- A value with `k` clear low bits just shifts out through `k` bit
steps: the polynomial is never xored in. -/
theorem crcBitSteps_mul_pow : ∀ (k h : Nat), crcBitSteps k (2 ^ k * h) = h
  | 0, h => by simp [crcBitSteps]
  | k + 1, h => by
    have h2 : 2 ^ (k + 1) * h = 2 * (2 ^ k * h) := by ring
    have heven : (2 ^ (k + 1) * h) % 2 = 0 := by rw [h2]; exact Nat.mul_mod_right 2 _
    have hdiv : (2 ^ (k + 1) * h) / 2 = 2 ^ k * h := by
      rw [h2]; exact Nat.mul_div_cancel_left _ (by norm_num)
    simp only [crcBitSteps, crcBitStep, heven, hdiv]
    exact crcBitSteps_mul_pow k h

/-- Splitting a 32-bit running value xored with a byte into its low
byte and its high 24 bits. -/
theorem xor_byte_split (v b : Nat) (hb : b < 256) :
    v ^^^ b = ((v % 2 ^ 8) ^^^ b) ^^^ 2 ^ 8 * (v >>> 8) := by
  apply Nat.eq_of_testBit_eq
  intro i
  simp only [Nat.testBit_xor, Nat.testBit_mod_two_pow, Nat.testBit_mul_pow_two,
    Nat.testBit_shiftRight]
  by_cases hi : i < 8
  · have hge : ¬ (i ≥ 8) := by omega
    simp [hi, hge]
  · have h2i : (256 : Nat) ≤ 2 ^ i := by
      calc (256 : Nat) = 2 ^ 8 := by norm_num
      _ ≤ 2 ^ i := Nat.pow_le_pow_right (by norm_num) (by omega)
    have hbi : b.testBit i = false := Nat.testBit_lt_two_pow (by omega)
    have h8 : 8 + (i - 8) = i := by omega
    simp [hi, hbi, h8, (by omega : i ≥ 8)]

/-- The table-driven per-byte update of the `crc` crate coincides with
the bit-at-a-time reference update. -/
theorem crcByteStep_eq_bitwise (v b : Nat) (hb : b < 256) :
    crcByteStep v b = crcBitSteps 8 (v ^^^ b) := by
  rw [xor_byte_split v b hb, crcBitSteps_xor, crcBitSteps_mul_pow]
  unfold crcByteStep crc32_table
  norm_num

theorem crc_fold_eq : ∀ (data : List Nat) (v : Nat), (∀ b ∈ data, b < 256) →
    data.foldl crcByteStep v = data.foldl (fun v b => crcBitSteps 8 (v ^^^ b)) v
  | [], _, _ => rfl
  | b :: rest, v, h => by
    simp only [List.foldl_cons]
    rw [crcByteStep_eq_bitwise v b (h b (by simp))]
    exact crc_fold_eq rest _ (fun x hx => h x (by simp [hx]))

/-- C2: seeding the second `crc32` call with the first call's result
chains the checksum — it equals the checksum of the concatenation, for
all byte sequences. -/
theorem crc32_chaining (part1 part2 : List Nat) :
    binascii_crc32 part2 (binascii_crc32 part1 0) = binascii_crc32 (part1 ++ part2) 0 := by
  unfold binascii_crc32
  rw [List.foldl_append, Nat.xor_cancel_right]

set_option maxRecDepth 10000 in
/-- C5: with the default seed, `crc32` of the empty sequence is 0 and
`crc32` of `"123456789"` is `0xCBF43926`; on every byte sequence the
table-driven implementation equals the bit-at-a-time IEEE CRC-32
reference (for any seed). The function is total by construction — it
has no failure mode. -/
theorem crc32_check_values_and_reference :
    binascii_crc32 [] 0 = 0
  ∧ binascii_crc32 [49, 50, 51, 52, 53, 54, 55, 56, 57] 0 = 0xCBF43926
  ∧ ∀ data : List Nat, (∀ b ∈ data, b < 256) → ∀ value : Nat,
      binascii_crc32 data value = crc32_bitwise_reference data value := by
  refine ⟨by decide, by decide, fun data h value => ?_⟩
  unfold binascii_crc32 crc32_bitwise_reference
  rw [crc_fold_eq data _ h]

/-- Witness for C5: the reference equality applied at the concrete
input `[0, 171, 255]` with seed 7. -/
theorem crc32_check_values_and_reference_witness :
    binascii_crc32 [0, 171, 255] 7 = crc32_bitwise_reference [0, 171, 255] 7 :=
  crc32_check_values_and_reference.2.2 [0, 171, 255] (by decide) 7

/-! ## Base64 properties -/

theorem b64value_b64char : ∀ n, n < 64 → b64value (b64char n) = some n := by decide

theorem b64char_ne_pad : ∀ n, n < 64 → b64char n ≠ 61 := by decide

theorem base64_decode_encode : ∀ b : List Nat, (∀ x ∈ b, x < 256) →
    base64_decode (base64_encode b) = .ok b
  | [], _ => rfl
  | [b1], h => by
    have h1 : b1 < 256 := h b1 (by simp)
    have e1 := b64value_b64char (b1 / 4) (by omega)
    have e2 := b64value_b64char (b1 % 4 * 16) (by omega)
    simp [base64_encode, base64_decode, e1, e2]
    omega
  | [b1, b2], h => by
    have h1 : b1 < 256 := h b1 (by simp)
    have h2 : b2 < 256 := h b2 (by simp)
    have e1 := b64value_b64char (b1 / 4) (by omega)
    have e2 := b64value_b64char (b1 % 4 * 16 + b2 / 16) (by omega)
    have e3 := b64value_b64char (b2 % 16 * 4) (by omega)
    have n3 := b64char_ne_pad (b2 % 16 * 4) (by omega)
    simp [base64_encode, base64_decode, e1, e2, e3, n3]
    omega
  | b1 :: b2 :: b3 :: rest, h => by
    have h1 : b1 < 256 := h b1 (by simp)
    have h2 : b2 < 256 := h b2 (by simp)
    have h3 : b3 < 256 := h b3 (by simp)
    have e1 := b64value_b64char (b1 / 4) (by omega)
    have e2 := b64value_b64char (b1 % 4 * 16 + b2 / 16) (by omega)
    have e3 := b64value_b64char (b2 % 16 * 4 + b3 / 64) (by omega)
    have e4 := b64value_b64char (b3 % 64) (by omega)
    have n3 := b64char_ne_pad (b2 % 16 * 4 + b3 / 64) (by omega)
    have n4 := b64char_ne_pad (b3 % 64) (by omega)
    have ih := base64_decode_encode rest (fun x hx => h x (by simp [hx]))
    simp [base64_encode, base64_decode, e1, e2, e3, e4, n3, n4, ih, Except.map]
    omega

/-- C8: decoding the base64 encoding returns the original input, and
the decoder succeeds (no error) on every encoder output. -/
theorem base64_roundtrip (b : List Nat) (h : ∀ x ∈ b, x < 256) :
    binascii_a2b_base64 (binascii_b2a_base64 b) = .ok b := by
  unfold binascii_a2b_base64 binascii_b2a_base64
  rw [base64_decode_encode b h]

/-- Witness for C8: the round trip on the concrete bytes of "hello"
(whose encoding `aGVsbG8=` exercises a padded trailing group). -/
theorem base64_roundtrip_witness :
    binascii_a2b_base64 (binascii_b2a_base64 [104, 101, 108, 108, 111])
      = .ok [104, 101, 108, 108, 111] :=
  base64_roundtrip [104, 101, 108, 108, 111] (by decide)

/-! ## Input classification properties -/

/-- C10: representation independence of the three-variant operations.
Supplying the same byte content as immutable bytes or as a mutable
buffer gives the same result for `unhexlify`, `crc32` (any seed) and
`a2b_base64`; and when the content is ASCII, supplying it as a text
value gives that same result as well. -/
theorem representation_independence (v : List Nat) (seed : Option Nat) :
    (unhexlify_entry (.bytes v) = unhexlify_entry (.bytearray v)
     ∧ crc32_entry (.bytes v) seed = crc32_entry (.bytearray v) seed
     ∧ a2b_base64_entry (.bytes v) = a2b_base64_entry (.bytearray v))
  ∧ ((∀ c ∈ v, c < 128) →
      unhexlify_entry (.str v) = unhexlify_entry (.bytes v)
      ∧ crc32_entry (.str v) seed = crc32_entry (.bytes v) seed
      ∧ a2b_base64_entry (.str v) = a2b_base64_entry (.bytes v)) := by
  refine ⟨⟨rfl, rfl, rfl⟩, fun hall => ?_⟩
  have hv : v.all (fun c => c < 128) = true := by
    rw [List.all_eq_true]
    intro c hc
    exact decide_eq_true (hall c hc)
  refine ⟨?_, ?_, ?_⟩ <;>
    simp only [unhexlify_entry, crc32_entry, a2b_base64_entry,
      SerializedData.try_from_object, hv, if_true] <;> rfl

/-- Witness for C10: the ASCII content `"01"` (bytes `[48, 49]`) gives
identical results through the text route and the bytes route. -/
theorem representation_independence_witness :
    unhexlify_entry (.str [48, 49]) = unhexlify_entry (.bytes [48, 49])
    ∧ crc32_entry (.str [48, 49]) none = crc32_entry (.bytes [48, 49]) none
    ∧ a2b_base64_entry (.str [48, 49]) = a2b_base64_entry (.bytes [48, 49]) :=
  (representation_independence [48, 49] none).2 (by decide)

/-- Counterexample to C7 as stated: not every entry point reports the
non-ASCII `ValueError` on non-ASCII text — `hexlify` takes the
byte-like input kind, which rejects every text value (ASCII or not)
with a type error instead. Concretely on the text `[233]` (`'é'`). -/
theorem hexlify_nonascii_not_value_error :
    hexlify_entry (.str [233])
      ≠ .error (.valueError "string argument should contain only ASCII characters") := by
  decide

/-- C7 as amended: the entry points that accept text input —
`unhexlify`/`a2b_hex`, `crc32` and `a2b_base64` — reject every text
value containing a character outside 0-127 with exactly the message
"string argument should contain only ASCII characters", already at
input classification (`SerializedData::try_from_object`), before any
codec runs; the byte-like entry points (`hexlify`/`b2a_hex`,
`b2a_base64`) reject every text value with a type error instead. -/
theorem nonascii_text_rejected (chars : List Nat) (seed : Option Nat)
    (h : ∃ c ∈ chars, 128 ≤ c) :
    SerializedData.try_from_object (.str chars)
      = .error (.valueError "string argument should contain only ASCII characters")
  ∧ unhexlify_entry (.str chars)
      = .error (.valueError "string argument should contain only ASCII characters")
  ∧ crc32_entry (.str chars) seed
      = .error (.valueError "string argument should contain only ASCII characters")
  ∧ a2b_base64_entry (.str chars)
      = .error (.valueError "string argument should contain only ASCII characters")
  ∧ hexlify_entry (.str chars)
      = .error (.typeError "a bytes-like object is required, not 'str'")
  ∧ b2a_base64_entry (.str chars)
      = .error (.typeError "a bytes-like object is required, not 'str'") := by
  have hv : chars.all (fun c => c < 128) = false := by
    rw [List.all_eq_false]
    obtain ⟨c, hc, hbig⟩ := h
    exact ⟨c, hc, by simpa using hbig⟩
  refine ⟨?_, ?_, ?_, ?_, rfl, rfl⟩ <;>
    simp only [unhexlify_entry, crc32_entry, a2b_base64_entry,
      SerializedData.try_from_object, hv, if_false, Bool.false_eq_true] <;> rfl

/-- Witness for C7 (amended): the concrete non-ASCII text `[233]`. -/
theorem nonascii_text_rejected_witness :
    unhexlify_entry (.str [233])
      = .error (.valueError "string argument should contain only ASCII characters")
    ∧ crc32_entry (.str [233]) none
      = .error (.valueError "string argument should contain only ASCII characters") :=
  ⟨(nonascii_text_rejected [233] none ⟨233, by simp, by omega⟩).2.1,
   (nonascii_text_rejected [233] none ⟨233, by simp, by omega⟩).2.2.1⟩

/-- Counterexample to C6 as stated: the checksum payload does not
reject text — `crc32` takes the full three-variant input, so the empty
text value is accepted and checksummed to 0. -/
theorem crc32_accepts_ascii_text : crc32_entry (.str []) none = .ok 0 := by decide

/-- C6 as amended: the base64 encode input (`b2a_base64`) accepts only
byte-like values — bytes or bytearray — and rejects every text value
with a type error; the checksum payload (`crc32`), `unhexlify` and
`a2b_base64` accept the full three-variant set, including ASCII
text. -/
theorem bytelike_and_three_variant_inputs (chars v : List Nat)
    (h : chars.all (fun c => c < 128) = true) :
    b2a_base64_entry (.str chars)
      = .error (.typeError "a bytes-like object is required, not 'str'")
  ∧ crc32_entry (.str chars) none = .ok (binascii_crc32 chars 0)
  ∧ unhexlify_entry (.str chars) = binascii_unhexlify chars
  ∧ a2b_base64_entry (.str chars) = binascii_a2b_base64 chars
  ∧ crc32_entry (.bytes v) none = .ok (binascii_crc32 v 0)
  ∧ crc32_entry (.bytearray v) none = .ok (binascii_crc32 v 0)
  ∧ b2a_base64_entry (.bytes v) = .ok (binascii_b2a_base64 v)
  ∧ b2a_base64_entry (.bytearray v) = .ok (binascii_b2a_base64 v) := by
  refine ⟨rfl, ?_, ?_, ?_, rfl, rfl, rfl, rfl⟩ <;>
    simp only [unhexlify_entry, crc32_entry, a2b_base64_entry,
      SerializedData.try_from_object, h, if_true] <;> rfl

/-- Witness for C6 (amended): the ASCII text `"1"` is rejected by the
byte-like `b2a_base64` entry but accepted by the `crc32` entry. -/
theorem bytelike_and_three_variant_inputs_witness :
    b2a_base64_entry (.str [49])
      = .error (.typeError "a bytes-like object is required, not 'str'")
    ∧ crc32_entry (.str [49]) none = .ok (binascii_crc32 [49] 0) :=
  ⟨(bytelike_and_three_variant_inputs [49] [] (by decide)).1,
   (bytelike_and_three_variant_inputs [49] [] (by decide)).2.1⟩
